import Mathlib

/-!
Verification development for the SUPERCOLD combat core
(src/unnamed/part_001, the latest snapshot of the game source).

The JavaScript simulation is shallowly embedded: numeric quantities
(speeds, seconds) are rationals, JavaScript objects become structures,
and the stateful prototype methods become explicit state-passing
functions.  Random draws of the library RNG are passed in as inputs,
constrained by the documented range of the drawing call.  Angles are
measured in degrees (the source measures them in radians, where
ANGLE_1DEG = pi/180; we use the degree as the unit so that angle
arithmetic stays rational).
-/

namespace Supercold

/-- JavaScript Math.round (round half towards positive infinity). -/
def jsRound (q : ℚ) : ℤ := (q + 1/2).floor

/-- Source line 341: PLAYER_SPEED = 300. -/
def PLAYER_SPEED : ℚ := 300

/-- Source line 342: BOT_SPEED_NORMAL = PLAYER_SPEED. -/
def BOT_SPEED_NORMAL : ℚ := PLAYER_SPEED

/-- Source line 343: BULLET_SPEED_NORMAL = PLAYER_SPEED * 5. -/
def BULLET_SPEED_NORMAL : ℚ := PLAYER_SPEED * 5

/-- Source line 337. -/
def FACTOR_SLOW : ℚ := 16

/-- Source line 338. -/
def FACTOR_SLOWER : ℚ := 42

/-- Source line 339. -/
def FACTOR_SLOWEST : ℚ := 192

/-- One of the two speed-tier tables (Supercold.speeds.bot / .bullet). -/
structure SpeedTable where
  normal : ℚ
  slow : ℚ
  slower : ℚ
  slowest : ℚ
deriving Repr, DecidableEq

/-- Supercold.speeds.bot, source lines 408-413. -/
def botSpeeds : SpeedTable :=
  { normal := PLAYER_SPEED
    slow := jsRound (BOT_SPEED_NORMAL / FACTOR_SLOW)
    slower := jsRound (BOT_SPEED_NORMAL / FACTOR_SLOWER)
    slowest := jsRound (BOT_SPEED_NORMAL / FACTOR_SLOWEST) }

/-- Supercold.speeds.bullet, source lines 414-419. -/
def bulletSpeeds : SpeedTable :=
  { normal := BULLET_SPEED_NORMAL
    slow := jsRound (BULLET_SPEED_NORMAL / FACTOR_SLOW)
    slower := jsRound (BULLET_SPEED_NORMAL / FACTOR_SLOWER)
    slowest := jsRound (BULLET_SPEED_NORMAL / FACTOR_SLOWEST) }

/-- The mutator set loaded from storage (keys as in the source). -/
structure Mutators where
  freelook : Bool
  fasttime : Bool
  fastgun : Bool
  bighead : Bool
  chibi : Bool
  dodge : Bool
  lmtdbull : Bool
  superhotswitch : Bool
  secondchance : Bool
  freezetime : Bool
  godmode : Bool
deriving Repr, DecidableEq

/-- Supercold.Game.prototype.getSpeed, source lines 3970-3978 (the method
is written with a leading underscore in the source).  Evaluates the
ordered speed-rule cascade, first match wins. -/
def getSpeed (m : Mutators) (playerAlive playerMoved playerRotated : Bool)
    (speeds : SpeedTable) : ℚ :=
  if !playerAlive then speeds.slow
  else if playerMoved then speeds.normal
  else if m.freezetime then 0
  else if m.fasttime then speeds.slow
  else if playerRotated then speeds.slower
  else speeds.slowest

/-- Supercold.baseFireRate, source line 422. -/
def baseFireRate : ℚ := 1/2

/-- Supercold.fastFireFactor, source line 423. -/
def fastFireFactor : ℚ := 1/2

/-- Supercold.initFireDelay, source line 424. -/
def initFireDelay : ℚ := 1/8

/-- Supercold.hotswitchTimeout, source line 426. -/
def hotswitchTimeout : ℚ := 5/2

/-- Supercold.superhotswitchTimeout, source line 427. -/
def superhotswitchTimeout : ℚ := 1/2

/-- Source line 327: NATIVE_WIDTH = 1366. -/
def NATIVE_WIDTH : ℚ := 1366

/-- Source line 328: NATIVE_HEIGHT = 768. -/
def NATIVE_HEIGHT : ℚ := 768

/-- ANGLE_1DEG, source line 1811: one degree, the unit of our angle
scale (pi/180 radians in the source). -/
def ANGLE_1DEG : ℚ := 1

/-- Bot.VIEW_ANGLE, source line 2081: pi/2.25 radians, i.e. 80 degrees. -/
def VIEW_ANGLE : ℚ := 80

/-- Player.DODGE_RELOAD_TIME, source line 1928 (0.075 seconds). -/
def DODGE_RELOAD_TIME : ℚ := 3/40

/-- Phaser.Math.normalizeAngle in degree units: wraps into the interval
from 0 inclusive to 360 exclusive. -/
def normalizeAngleDeg (a : ℚ) : ℚ := a - 360 * ((a / 360).floor : ℚ)

/-- Phaser.Math.reverseAngle in degree units. -/
def reverseAngleDeg (a : ℚ) : ℚ := normalizeAngleDeg (a + 180)

/-- The state of the Player sprite (part of the fields mutated by the
combat simulation; body velocity and rendering state are not modelled).
The weapon held by the player is represented by its current fire rate;
its bullet-spawning side effects are modelled at Game level. -/
structure PlayerState where
  alive : Bool
  x : ℚ
  y : ℚ
  rotation : ℚ
  remainingTime : ℚ
  dodgeRemainingTime : ℚ
  dodging : Bool
  direction : ℚ
  duration : ℚ
  fireRate : ℚ
deriving Repr, DecidableEq

/-- Player.prototype.dodge, source lines 1967-1973. -/
def playerDodge (direction : ℚ) (p : PlayerState) : PlayerState :=
  if !p.dodging ∧ p.dodgeRemainingTime ≤ 0 then
    { p with dodging := true, duration := 3/40, direction := direction }
  else p

/-- Player.prototype.advance, source lines 1979-1998.  The moveForward
and setZeroVelocity calls write only to the physics body and are not part
of the modelled state. -/
def playerAdvance (_moved : Bool) (_direction elapsedTime : ℚ)
    (p : PlayerState) : PlayerState :=
  let p1 := { p with remainingTime := p.remainingTime - elapsedTime,
                     dodgeRemainingTime := p.dodgeRemainingTime - elapsedTime }
  if p1.dodging then
    let p2 := { p1 with duration := p1.duration - elapsedTime }
    if p2.duration ≤ 0 then
      { p2 with dodging := false, dodgeRemainingTime := DODGE_RELOAD_TIME }
    else p2
  else p1

/-- The state of one Bot sprite.  Like the player, the held weapon is
represented by its fire rate. -/
structure BotState where
  alive : Bool
  x : ℚ
  y : ℚ
  rotation : ℚ
  remainingTime : ℚ
  dodging : Bool
  direction : ℚ
  duration : ℚ
  weaponFireRate : ℚ
deriving Repr, DecidableEq

/-- Per-tick inputs consumed by Bot.prototype.advance: the geometric
queries against the player and the draws of the random number generator,
each constrained (in the theorems) to the documented range of the
drawing call that produced it. -/
structure BotInput where
  dist : ℚ
  bearing : ℚ
  fireFrac : ℚ
  cooldownDraw : ℚ
  jitterDraw : ℚ
  dodgeFrac : ℚ
  reactFrac : ℚ
  dirSign : Bool
deriving Repr, DecidableEq

/-- Bot.prototype.dodge (written with a leading underscore in the
source), lines 2125-2131.  The strafe direction of plus or minus pi/2
radians is 90 degrees in our units. -/
def botDodge (durationFix : ℚ) (dirSign : Bool) (b : BotState) : BotState :=
  { b with dodging := true, duration := 1/4 + durationFix,
           direction := (if dirSign then 1 else -1) * 90 }

/-- Bot.prototype.fire together with the underscore-prefixed fire helper,
source lines 2104-2123.  Returns the new bot state and, when a shot was
taken, the rotation given to the spawned bullet (the bot temporarily
jitters its body rotation by realInRange(-2deg, 2deg), fires, and
restores the rotation; LiveSprite.prototype.fire then resets the fire
cooldown to the weapon fire rate). -/
def botFireStep (inp : BotInput) (b : BotState) : BotState × Option ℚ :=
  if inp.fireFrac ≤ 1/5 then
    ({ b with remainingTime := inp.cooldownDraw }, none)
  else
    ({ b with remainingTime := b.weaponFireRate },
     some (b.rotation + inp.jitterDraw))

/-- Host-loop timing values read by Bot.prototype.advance. -/
structure TimeInfo where
  physicsElapsed : ℚ
  desiredFps : ℚ
deriving Repr, DecidableEq

/-- Bot.prototype.advance, source lines 2137-2184.  Movement-strategy
calls (move, moveForward) write only the physics-body velocity and are
not part of the modelled state.  In the source, slowFactor is
physicsElapsed / elapsedTime; when elapsedTime is 0 that quotient is
Infinity in JavaScript and the dodge chance 1/(fps*1.2*Infinity) is 0,
while here the total rational division yields slowFactor = 0 and chance
1/0 = 0: the comparison below agrees in both semantics. -/
def botAdvance (t : TimeInfo) (elapsedTime _speed level playerRotation : ℚ)
    (playerFired : Bool) (inp : BotInput) (b : BotState) :
    BotState × Option ℚ :=
  let b0 := { b with remainingTime := b.remainingTime - elapsedTime,
                     rotation := inp.bearing }
  let fired :=
    if inp.dist < (NATIVE_WIDTH + NATIVE_HEIGHT) / 2 ∧ b0.remainingTime ≤ 0 then
      botFireStep inp b0
    else (b0, none)
  let b1 := fired.1
  if b1.dodging then
    let d := b1.duration - elapsedTime
    ({ b1 with duration := d, dodging := decide (0 < d) }, fired.2)
  else
    let slowFactor := t.physicsElapsed / elapsedTime
    let b2 :=
      if inp.dodgeFrac ≤ 1 / (t.desiredFps * (6/5) * slowFactor) then
        botDodge (level / 250) inp.dirSign b1
      else b1
    let b3 :=
      if playerFired then
        let angleDiff := reverseAngleDeg playerRotation - normalizeAngleDeg b2.rotation
        if angleDiff < VIEW_ANGLE ∧ -VIEW_ANGLE < angleDiff then
          if inp.reactFrac ≤ 1/4 + min (2/4) (2/4 * level / 100) then
            botDodge (level / 200) inp.dirSign b2
          else b2
        else b2
      else b2
    (b3, fired.2)

/-- The part of the Supercold.Game state that the combat simulation
mutates.  The counts record mirrors the source: countsBots is the number
of bots left to spawn and countsBullets the remaining player-bullet
budget (minus one when the limited-bullets mutator is off).  playerShots
counts the successful player fire() calls, standing in for the bullets
emitted into the pool. -/
structure GameState where
  level : ℕ
  player : PlayerState
  countsBots : ℤ
  countsBullets : ℤ
  nextBotTime : ℚ
  nextHotSwitch : ℚ
  hotswitching : Bool
  bots : List BotState
  playerShots : ℕ
deriving Repr, DecidableEq

/-- The number of living bots in a group (Phaser countLiving). -/
def countLiving (bots : List BotState) : ℕ := (bots.filter (fun b => b.alive)).length

/-- The superhot getter, source lines 3272-3276: no bot left to spawn
and none living. -/
def superhot (s : GameState) : Bool :=
  s.countsBots == 0 && countLiving s.bots == 0

/-- The hotswitch-timeout getter, source lines 3278-3283. -/
def hotswitchTimeoutOf (m : Mutators) : ℚ :=
  if m.superhotswitch then superhotswitchTimeout else hotswitchTimeout

/-- The bot-count formula of Supercold.Game.prototype.init, source lines
3298-3315. -/
def botsForLevel (level : ℕ) : ℤ :=
  if level = 9 ∨ level = 19 ∨ level = 29 ∨ level = 39 ∨ level = 49 ∨ level = 74 then
    6 + level
  else if level % 10 = 0 then level
  else 5 + ((level : ℚ) * (666/1000)).floor

/-- The bullet-budget initialization of Supercold.Game.prototype.init,
source line 3316. -/
def initBullets (m : Mutators) (nbots : ℤ) : ℤ :=
  if m.lmtdbull then nbots * 3 else -1

/-- Supercold.Game.prototype.firePlayerBullet (underscore-prefixed in the
source), lines 3980-3994.  Refuses when the fire cooldown is running or
the bullet budget is exactly zero; otherwise the player fires (which
resets the cooldown to the weapon fire rate) and the budget drops by
one. -/
def firePlayerBullet (s : GameState) : GameState × Bool :=
  if 0 < s.player.remainingTime ∨ s.countsBullets = 0 then (s, false)
  else
    ({ s with player := { s.player with remainingTime := s.player.fireRate },
              playerShots := s.playerShots + 1,
              countsBullets := s.countsBullets - 1 }, true)

/-- Inputs to Supercold.Game.prototype.spawnBot (underscore-prefixed in
the source), lines 3771-3812: the clamped spawn position (computed there
from a random angle at a fixed radius around the player) and the fire
rate of the randomly assigned weapon. -/
structure SpawnInput where
  x : ℚ
  y : ℚ
  weaponFireRate : ℚ
deriving Repr, DecidableEq

/-- A bot as delivered by getFirstDead plus Bot.prototype.reset plus
weapon assignment: alive, fire cooldown at the initial fire delay, no
dodge in progress. -/
def freshBot (inp : SpawnInput) : BotState :=
  { alive := true, x := inp.x, y := inp.y, rotation := 0,
    remainingTime := initFireDelay, dodging := false,
    direction := 0, duration := 0, weaponFireRate := inp.weaponFireRate }

/-- Phaser getFirstDead with CREATE_IF_NULL: revive the first dead slot
of the group, or append a new member when none is dead. -/
def reviveFirstDead (nb : BotState) : List BotState → List BotState
  | [] => [nb]
  | b :: bs => if b.alive then b :: reviveFirstDead nb bs else nb :: bs

/-- Supercold.Game.prototype.spawnBot (underscore-prefixed), source
lines 3771-3812: decrement the remaining-to-spawn count and recycle or
create a bot at the drawn position. -/
def spawnBot (inp : SpawnInput) (s : GameState) : GameState :=
  { s with countsBots := s.countsBots - 1,
           bots := reviveFirstDead (freshBot inp) s.bots }

/-- Per-tick inputs of Supercold.Game.prototype.update: timing, control
state, the pointer angle Player.rotate will assign, and the random draws
used by spawning and by each bot. -/
structure TickInput where
  time : TimeInfo
  moveKeys : Bool
  pointerAngle : ℚ
  fireDown : Bool
  dodgeDown : Bool
  newDirection : ℚ
  botTimeDraw : ℚ
  spawnInput : SpawnInput
  botInputs : List BotInput
deriving Repr, DecidableEq

/-- The playerMoved flag of update, source line 4031. -/
def playerMovedOf (inp : TickInput) (s : GameState) : Bool :=
  inp.moveKeys || s.player.dodging

/-- The playerRotated flag of update, source line 4032: Player.rotate
reports whether the body rotation changed, and freelook suppresses the
flag. -/
def playerRotatedOf (m : Mutators) (inp : TickInput) (s : GameState) : Bool :=
  decide (s.player.rotation ≠ inp.pointerAngle) && !m.freelook

/-- The dilated elapsed time of the tick, source lines 4040-4041: the
real physics elapsed time scaled by the ratio of the current bullet
speed tier to the normal bullet speed. -/
def dilatedElapsed (m : Mutators) (inp : TickInput) (s : GameState) : ℚ :=
  inp.time.physicsElapsed *
    (getSpeed m s.player.alive (playerMovedOf inp s) (playerRotatedOf m inp s)
        bulletSpeeds / bulletSpeeds.normal)

/-- Advance every living bot of the group, zipping each against its
per-tick input (BotGroup.prototype.advance, source lines 2735-2745). -/
def botsAdvance (t : TimeInfo) (elapsedTime speed level playerRotation : ℚ)
    (playerFired : Bool) : List BotInput → List BotState → List BotState
  | _, [] => []
  | [], bs => bs
  | inp :: is, b :: bs =>
    (if b.alive then
        (botAdvance t elapsedTime speed level playerRotation playerFired inp b).1
      else b)
      :: botsAdvance t elapsedTime speed level playerRotation playerFired is bs

/-- Supercold.Game.prototype.update, source lines 3997-4082, restricted
to the modelled state: the superhot early return, the speed derivation,
the dilated elapsed time, the player fire/dodge/advance phase, the
hotswitch-cooldown and spawn-countdown bookkeeping, and the bot
advancement.  HUD updates and body-velocity writes are presentation
effects outside the model. -/
def update (m : Mutators) (inp : TickInput) (s : GameState) : GameState :=
  if superhot s then s
  else
    let playerMoved := playerMovedOf inp s
    let botSpeed := getSpeed m s.player.alive playerMoved (playerRotatedOf m inp s) botSpeeds
    let elapsedTime := dilatedElapsed m inp s
    let s0 := { s with player := { s.player with rotation := inp.pointerAngle } }
    let fireResult :=
      if s0.player.alive && inp.fireDown then firePlayerBullet s0 else (s0, false)
    let s1 := fireResult.1
    let playerFired := fireResult.2
    let s2 :=
      if s1.player.alive then
        let p :=
          if playerMoved && m.dodge && inp.dodgeDown then
            playerDodge inp.newDirection s1.player
          else s1.player
        { s1 with player := playerAdvance playerMoved inp.newDirection elapsedTime p }
      else s1
    let s3 :=
      if s2.hotswitching then s2
      else { s2 with nextHotSwitch := s2.nextHotSwitch - elapsedTime }
    let s4 :=
      if 0 < s3.countsBots then
        let t := s3.nextBotTime - elapsedTime
        if t ≤ 0 then { spawnBot inp.spawnInput s3 with nextBotTime := inp.botTimeDraw }
        else { s3 with nextBotTime := t }
      else s3
    { s4 with
        bots := botsAdvance inp.time elapsedTime botSpeed (s4.level : ℚ)
          s4.player.rotation playerFired inp.botInputs s4.bots }

/-- Test whether the bot at an index of the group is alive (dead when
the index is out of range). -/
def botAliveAt : List BotState → ℕ → Bool
  | [], _ => false
  | b :: _, 0 => b.alive
  | _ :: bs, n + 1 => botAliveAt bs n

/-- Kill the bot at an index of the group (Phaser Sprite.kill sets the
alive flag to false). -/
def killBotAt : List BotState → ℕ → List BotState
  | [], _ => []
  | b :: bs, 0 => { b with alive := false } :: bs
  | b :: bs, n + 1 => b :: killBotAt bs n

/-- Supercold.Game.prototype.botKillHandler (underscore-prefixed),
source lines 3622-3633: ignore contacts with an already-dead bot,
otherwise kill the bot (the colliding bullet dies too; bullets are
modelled separately) and start the win sequence exactly when the
superhot getter now holds.  The returned flag records whether the win
sequence was triggered. -/
def botKillHandler (s : GameState) (i : ℕ) : GameState × Bool :=
  if botAliveAt s.bots i then
    let s1 := { s with bots := killBotAt s.bots i }
    (s1, superhot s1)
  else (s, false)

/-- The level-progression events that can change the win condition: a
spawn (update only spawns while countsBots is positive, source line
4059) and a bullet-on-bot contact handled by the kill handler. -/
inductive LevelEvent where
  | spawn (inp : SpawnInput)
  | kill (i : ℕ)
deriving Repr, DecidableEq

/-- One level-progression event; the flag records a win trigger. -/
def levelStep (s : GameState) : LevelEvent → GameState × Bool
  | .spawn inp => (if 0 < s.countsBots then spawnBot inp s else s, false)
  | .kill i => botKillHandler s i

/-- The number of win triggers over a sequence of level events. -/
def levelTriggers (s : GameState) : List LevelEvent → ℕ
  | [] => 0
  | e :: es =>
    let r := levelStep s e
    (if r.2 then 1 else 0) + levelTriggers r.1 es

/-- The slice of game state touched by the hotswitch handler, source
lines 3421-3478: the cooldown, the animation flag, and the physics
positions of the player and of the clicked bot. -/
structure HotswitchState where
  nextHotSwitch : ℚ
  hotswitching : Bool
  playerX : ℚ
  playerY : ℚ
  botX : ℚ
  botY : ℚ
deriving Repr, DecidableEq

/-- The entry checks of the hotswitch input handler, source lines
3429-3444: require the hotswitch controls, a cooldown that has run out,
and no swap animation in progress; on acceptance the animation starts
(hotswitching is set before any tween completes).  The flag records
acceptance. -/
def hotswitchRequest (controlsHeld : Bool) (s : HotswitchState) :
    HotswitchState × Bool :=
  if !controlsHeld then (s, false)
  else if 0 < s.nextHotSwitch then (s, false)
  else if s.hotswitching then (s, false)
  else ({ s with hotswitching := true }, true)

/-- The swap callback run when the fade-out tween completes, source
lines 3450-3470: exchange the two body positions through a temporary
and restart the cooldown at the mutator-dependent timeout. -/
def hotswitchSwap (m : Mutators) (s : HotswitchState) : HotswitchState :=
  { s with playerX := s.botX, playerY := s.botY,
           botX := s.playerX, botY := s.playerY,
           nextHotSwitch := hotswitchTimeoutOf m }

/-- The callback run when the fade-in tween completes, source lines
3471-3476: the animation is over. -/
def endHotswitch (s : HotswitchState) : HotswitchState :=
  { s with hotswitching := false }

/-- The slice of game state touched by the lose handler: the colliding
bullet, the player, the mutator set (secondchance is consumed by the
handler), the win-condition inputs, and the two detachable handler
registrations. -/
structure LoseState where
  bulletAlive : Bool
  playerAlive : Bool
  mutators : Mutators
  countsBots : ℤ
  bots : List BotState
  inputAttached : Bool
  playerBulletCollision : Bool
deriving Repr, DecidableEq

/-- The superhot getter as read by the lose handler. -/
def loseSuperhot (s : LoseState) : Bool :=
  s.countsBots == 0 && countLiving s.bots == 0

/-- Supercold.Game.prototype.lose (underscore-prefixed), source lines
3538-3580: the bullet dies first (re-entrant calls with a dead bullet
return immediately), a dead player returns, an active second chance is
consumed, a won level or godmode saves the player, and otherwise the
hotswitch input handlers are removed, the player-bullet collision
handlers are detached, and the player dies. -/
def lose (s : LoseState) : LoseState :=
  if !s.bulletAlive then s
  else
    let s1 := { s with bulletAlive := false }
    if !s1.playerAlive then s1
    else if s1.mutators.secondchance then
      { s1 with mutators := { s1.mutators with secondchance := false } }
    else if loseSuperhot s1 || s1.mutators.godmode then s1
    else
      { s1 with inputAttached := false, playerBulletCollision := false,
                playerAlive := false }

/-- Rifle.BULLET_COUNT, source line 2451. -/
def RIFLE_BULLET_COUNT : ℤ := 10

/-- Rifle.FIRE_RATE, source line 2452. -/
def RIFLE_FIRE_RATE : ℚ := baseFireRate / 4

/-- The mutable state of a Rifle, source lines 2441-2449: the internal
shot counter and the current fire rate. -/
structure RifleState where
  bulletCount : ℤ
  fireRate : ℚ
deriving Repr, DecidableEq

/-- The Rifle constructor, source lines 2441-2449. -/
def rifleInit (fireFactor : ℚ) : RifleState :=
  { bulletCount := RIFLE_BULLET_COUNT, fireRate := RIFLE_FIRE_RATE * fireFactor }

/-- Rifle.prototype.fire, source lines 2462-2482, restricted to the
weapon state (the spawned bullet and the muzzle offset are handled by
the bullet model): decrement the shot counter; while it stays positive
the fire rate becomes base times the realInRange(0.9, 1.4) draw, and on
the last shot the counter resets to BULLET_COUNT and the fire rate
becomes base times 3.5. -/
def rifleFire (fireFactor draw : ℚ) (r : RifleState) : RifleState :=
  let c := r.bulletCount - 1
  if 0 < c then
    { bulletCount := c, fireRate := RIFLE_FIRE_RATE * fireFactor * draw }
  else
    { bulletCount := RIFLE_BULLET_COUNT,
      fireRate := RIFLE_FIRE_RATE * fireFactor * (7/2) }

/-- Fire a rifle repeatedly, one draw per shot. -/
def rifleFireSeq (fireFactor : ℚ) (draws : List ℚ) (r : RifleState) : RifleState :=
  draws.foldl (fun st d => rifleFire fireFactor d st) r

/-- The alive flags of a player bullet and a bot bullet in contact. -/
structure BulletPairState where
  playerBullet : Bool
  botBullet : Bool
deriving Repr, DecidableEq

/-- One invocation of bulletHandler, source lines 3320-3323: the handler
registered on each body kills only its own bullet (the other bullet dies
from the symmetric invocation).  The side selects whose registration
fired. -/
def bulletHandlerStep (myIsPlayerBullet : Bool) (s : BulletPairState) :
    BulletPairState :=
  if myIsPlayerBullet then { s with playerBullet := false }
  else { s with botBullet := false }

/-- A physics step delivers a list of handler invocations for the
contact (possibly several per side for multi-shape bullets). -/
def bulletContactRun (s : BulletPairState) : List Bool → BulletPairState
  | [] => s
  | side :: rest => bulletContactRun (bulletHandlerStep side s) rest

/-- The modelled state of one pooled Bullet, source lines 2489-2580,
together with the trail attachment kept by the BulletTrailPainter
dictionary for it.  The owner is the actor that fired it (compared by
id). -/
structure BulletState where
  alive : Bool
  x : ℚ
  y : ℚ
  rotation : ℚ
  owner : Option ℕ
  trailAttached : Bool
deriving Repr, DecidableEq

/-- A Bullet as constructed, source lines 2489-2503: dead in the pool,
no owner. -/
def freshBullet : BulletState :=
  { alive := false, x := 0, y := 0, rotation := 0, owner := none,
    trailAttached := false }

/-- Bullet.prototype.reset, source lines 2520-2523: revive at the given
position and clear the owner. -/
def bulletReset (x y : ℚ) (b : BulletState) : BulletState :=
  { b with alive := true, x := x, y := y, owner := none }

/-- Bullet.prototype.fire, source lines 2569-2580: reset in front of the
firing entity (the trigonometric muzzle offset is supplied as the
precomputed position px, py), record the owner, set the rotation, and
revive, which dispatches onRevived and hence startTrail (source line
3338). -/
def bulletFire (ownerId : ℕ) (px py rotation : ℚ) (b : BulletState) : BulletState :=
  let b1 := bulletReset px py b
  let b2 := { b1 with owner := some ownerId, rotation := rotation }
  { b2 with trailAttached := true }

/-- Bullet.prototype.kill, source lines 2510-2513: Sprite.kill clears
the alive flag and dispatches onKilled, whose handler stopTrail (source
lines 3329-3332, 3339) detaches the trail; stopTrail is guarded, so a
repeated kill leaves the painter dictionary unchanged. -/
def bulletKill (b : BulletState) : BulletState :=
  { b with alive := false, trailAttached := false }

/-- The lifecycle events of a pooled bullet.  A reset is not a separate
event: the only call to Bullet.prototype.reset is the one inside
Bullet.prototype.fire (the pool recycles bullets through fire), so reuse
is represented by a new fire event. -/
inductive BulletEvent where
  | fire (ownerId : ℕ) (px py rotation : ℚ)
  | kill
deriving Repr, DecidableEq

/-- Apply one bullet lifecycle event. -/
def bulletStep (b : BulletState) : BulletEvent → BulletState
  | .fire o px py r => bulletFire o px py r b
  | .kill => bulletKill b

/-- The owner recorded by the most recent fire event of a sequence,
starting from a given owner. -/
def lastFireOwner : List BulletEvent → Option ℕ → Option ℕ
  | [], acc => acc
  | .fire o _ _ _ :: es, _ => lastFireOwner es (some o)
  | .kill :: es, acc => lastFireOwner es acc

/-- Run a sequence of bullet lifecycle events. -/
def bulletRun (b : BulletState) : List BulletEvent → BulletState
  | [] => b
  | e :: es => bulletRun (bulletStep b e) es

/-- Run a sequence of player fire attempts (one per tick on which the
fire control is held, as in update lines 4044-4047), counting the
successful shots. -/
def fireAttempts (s : GameState) : List Bool → GameState × ℕ
  | [] => (s, 0)
  | a :: rest =>
    let step := if a then firePlayerBullet s else (s, false)
    let next := fireAttempts step.1 rest
    (next.1, (if step.2 then 1 else 0) + next.2)

/-- A mutator set with every toggle off (the stored default, source
lines 4262-4275). -/
def mutAllOff : Mutators :=
  { freelook := false, fasttime := false, fastgun := false, bighead := false,
    chibi := false, dodge := false, lmtdbull := false, superhotswitch := false,
    secondchance := false, freezetime := false, godmode := false }

/-- A mutator set with only freeze-time on. -/
def mutFreeze : Mutators := { mutAllOff with freezetime := true }

/-- A concrete player used by witnesses. -/
def samplePlayer : PlayerState :=
  { alive := true, x := 0, y := 0, rotation := 0, remainingTime := 1/4,
    dodgeRemainingTime := 0, dodging := false, direction := 0, duration := 0,
    fireRate := 1/2 }

/-- A concrete living bot used by witnesses. -/
def sampleBot : BotState :=
  { alive := true, x := 100, y := 0, rotation := 0, remainingTime := 1/4,
    dodging := false, direction := 0, duration := 0, weaponFireRate := 1/2 }

/-- Concrete per-bot tick inputs used by witnesses. -/
def sampleBotInput : BotInput :=
  { dist := 100, bearing := 0, fireFrac := 1/2, cooldownDraw := 0,
    jitterDraw := 1, dodgeFrac := 1, reactFrac := 1, dirSign := true }

/-- A concrete game state used by witnesses: one bot alive, two left to
spawn, an unlimited bullet budget. -/
def sampleGame : GameState :=
  { level := 3, player := samplePlayer, countsBots := 2, countsBullets := -1,
    nextBotTime := 1, nextHotSwitch := 1, hotswitching := false,
    bots := [sampleBot], playerShots := 0 }

/-- Concrete tick inputs used by witnesses: the player holds a movement
key and nothing else. -/
def sampleTick : TickInput :=
  { time := { physicsElapsed := 1/60, desiredFps := 60 }, moveKeys := true,
    pointerAngle := 0, fireDown := false, dodgeDown := false, newDirection := 0,
    botTimeDraw := 1, spawnInput := { x := 0, y := 0, weaponFireRate := 1/2 },
    botInputs := [sampleBotInput] }

/-- A concrete lose-handler state with the level already won (nothing
left to spawn, no living bot) while a bullet still hits the live player,
with no modifier active. -/
def loseCexState : LoseState :=
  { bulletAlive := true, playerAlive := true, mutators := mutAllOff,
    countsBots := 0, bots := [], inputAttached := true,
    playerBulletCollision := true }

/-- A concrete mid-level lose-handler state with second-chance active. -/
def loseSecondChanceState : LoseState :=
  { bulletAlive := true, playerAlive := true,
    mutators := { mutAllOff with secondchance := true }, countsBots := 2,
    bots := [], inputAttached := true, playerBulletCollision := true }

/-- A concrete mid-level lose-handler state with no modifier active. -/
def loseNormalState : LoseState :=
  { bulletAlive := true, playerAlive := true, mutators := mutAllOff,
    countsBots := 2, bots := [], inputAttached := true,
    playerBulletCollision := true }

/-- Helper for evaluating jsRound at concrete rationals. -/
theorem jsRound_eq (q : ℚ) (n : ℤ) (d : ℕ) (h : q + 1/2 = (n : ℚ) / (d : ℚ)) :
    jsRound q = n / (d : ℤ) := by
  rw [jsRound, show ((q + 1/2 : ℚ)).floor = ⌊(q + 1/2 : ℚ)⌋ from rfl, h,
    Rat.floor_intCast_div_natCast]

section helperLemmas

variable (m : Mutators) (inp : TickInput) (s : GameState)

@[simp] lemma firePlayerBullet_fst_level : (firePlayerBullet s).1.level = s.level := by
  rw [firePlayerBullet]; split <;> rfl

@[simp] lemma firePlayerBullet_fst_countsBots :
    (firePlayerBullet s).1.countsBots = s.countsBots := by
  rw [firePlayerBullet]; split <;> rfl

@[simp] lemma firePlayerBullet_fst_nextBotTime :
    (firePlayerBullet s).1.nextBotTime = s.nextBotTime := by
  rw [firePlayerBullet]; split <;> rfl

@[simp] lemma firePlayerBullet_fst_nextHotSwitch :
    (firePlayerBullet s).1.nextHotSwitch = s.nextHotSwitch := by
  rw [firePlayerBullet]; split <;> rfl

@[simp] lemma firePlayerBullet_fst_hotswitching :
    (firePlayerBullet s).1.hotswitching = s.hotswitching := by
  rw [firePlayerBullet]; split <;> rfl

@[simp] lemma firePlayerBullet_fst_bots : (firePlayerBullet s).1.bots = s.bots := by
  rw [firePlayerBullet]; split <;> rfl

@[simp] lemma firePlayerBullet_fst_player_alive :
    (firePlayerBullet s).1.player.alive = s.player.alive := by
  rw [firePlayerBullet]; split <;> rfl

@[simp] lemma firePlayerBullet_fst_player_rotation :
    (firePlayerBullet s).1.player.rotation = s.player.rotation := by
  rw [firePlayerBullet]; split <;> rfl

@[simp] lemma firePlayerBullet_fst_player_dodging :
    (firePlayerBullet s).1.player.dodging = s.player.dodging := by
  rw [firePlayerBullet]; split <;> rfl

@[simp] lemma firePlayerBullet_fst_player_dodgeRemainingTime :
    (firePlayerBullet s).1.player.dodgeRemainingTime = s.player.dodgeRemainingTime := by
  rw [firePlayerBullet]; split <;> rfl

@[simp] lemma firePlayerBullet_fst_player_duration :
    (firePlayerBullet s).1.player.duration = s.player.duration := by
  rw [firePlayerBullet]; split <;> rfl

variable (p : PlayerState) (moved : Bool) (dir dt : ℚ)

@[simp] lemma playerAdvance_remainingTime :
    (playerAdvance moved dir dt p).remainingTime = p.remainingTime - dt := by
  rw [playerAdvance]; dsimp only; split
  · split <;> rfl
  · rfl

@[simp] lemma playerAdvance_rotation :
    (playerAdvance moved dir dt p).rotation = p.rotation := by
  rw [playerAdvance]; dsimp only; split
  · split <;> rfl
  · rfl

@[simp] lemma playerAdvance_alive :
    (playerAdvance moved dir dt p).alive = p.alive := by
  rw [playerAdvance]; dsimp only; split
  · split <;> rfl
  · rfl

@[simp] lemma playerDodge_remainingTime :
    (playerDodge dir p).remainingTime = p.remainingTime := by
  rw [playerDodge]; split <;> rfl

@[simp] lemma playerDodge_dodgeRemainingTime :
    (playerDodge dir p).dodgeRemainingTime = p.dodgeRemainingTime := by
  rw [playerDodge]; split <;> rfl

@[simp] lemma playerDodge_rotation : (playerDodge dir p).rotation = p.rotation := by
  rw [playerDodge]; split <;> rfl

@[simp] lemma playerDodge_alive : (playerDodge dir p).alive = p.alive := by
  rw [playerDodge]; split <;> rfl

lemma playerDodge_of_dodging (h : p.dodging = true) : playerDodge dir p = p := by
  rw [playerDodge]; simp [h]

lemma playerAdvance_of_not_dodging (h : p.dodging = false) :
    playerAdvance moved dir dt p =
      { p with remainingTime := p.remainingTime - dt,
               dodgeRemainingTime := p.dodgeRemainingTime - dt } := by
  rw [playerAdvance]; simp [h]

lemma playerAdvance_of_dodging_pos (h : p.dodging = true)
    (hpos : 0 < p.duration - dt) :
    playerAdvance moved dir dt p =
      { p with remainingTime := p.remainingTime - dt,
               dodgeRemainingTime := p.dodgeRemainingTime - dt,
               duration := p.duration - dt } := by
  rw [playerAdvance]; simp [h, not_le.mpr hpos]

variable (c : Prop) [Decidable c]

@[simp] lemma ite_fst {α β : Type} (a b : α × β) :
    (if c then a else b).1 = if c then a.1 else b.1 := apply_ite _ c a b

@[simp] lemma ite_snd {α β : Type} (a b : α × β) :
    (if c then a else b).2 = if c then a.2 else b.2 := apply_ite _ c a b

@[simp] lemma ite_game_player (a b : GameState) :
    (if c then a else b).player = if c then a.player else b.player :=
  apply_ite _ c a b

@[simp] lemma ite_game_nextHotSwitch (a b : GameState) :
    (if c then a else b).nextHotSwitch =
      if c then a.nextHotSwitch else b.nextHotSwitch := apply_ite _ c a b

@[simp] lemma ite_game_nextBotTime (a b : GameState) :
    (if c then a else b).nextBotTime = if c then a.nextBotTime else b.nextBotTime :=
  apply_ite _ c a b

@[simp] lemma ite_game_countsBots (a b : GameState) :
    (if c then a else b).countsBots = if c then a.countsBots else b.countsBots :=
  apply_ite _ c a b

@[simp] lemma ite_game_countsBullets (a b : GameState) :
    (if c then a else b).countsBullets =
      if c then a.countsBullets else b.countsBullets := apply_ite _ c a b

@[simp] lemma ite_game_bots (a b : GameState) :
    (if c then a else b).bots = if c then a.bots else b.bots := apply_ite _ c a b

@[simp] lemma ite_game_level (a b : GameState) :
    (if c then a else b).level = if c then a.level else b.level := apply_ite _ c a b

@[simp] lemma ite_game_hotswitching (a b : GameState) :
    (if c then a else b).hotswitching =
      if c then a.hotswitching else b.hotswitching := apply_ite _ c a b

@[simp] lemma ite_player_remainingTime (a b : PlayerState) :
    (if c then a else b).remainingTime =
      if c then a.remainingTime else b.remainingTime := apply_ite _ c a b

@[simp] lemma ite_player_dodgeRemainingTime (a b : PlayerState) :
    (if c then a else b).dodgeRemainingTime =
      if c then a.dodgeRemainingTime else b.dodgeRemainingTime := apply_ite _ c a b

@[simp] lemma ite_player_duration (a b : PlayerState) :
    (if c then a else b).duration = if c then a.duration else b.duration :=
  apply_ite _ c a b

@[simp] lemma ite_player_rotation (a b : PlayerState) :
    (if c then a else b).rotation = if c then a.rotation else b.rotation :=
  apply_ite _ c a b

@[simp] lemma ite_player_dodging (a b : PlayerState) :
    (if c then a else b).dodging = if c then a.dodging else b.dodging :=
  apply_ite _ c a b

@[simp] lemma ite_player_alive (a b : PlayerState) :
    (if c then a else b).alive = if c then a.alive else b.alive :=
  apply_ite _ c a b

@[simp] lemma ite_bot_remainingTime (a b : BotState) :
    (if c then a else b).remainingTime =
      if c then a.remainingTime else b.remainingTime := apply_ite _ c a b

@[simp] lemma ite_bot_duration (a b : BotState) :
    (if c then a else b).duration = if c then a.duration else b.duration :=
  apply_ite _ c a b

@[simp] lemma ite_bot_dodging (a b : BotState) :
    (if c then a else b).dodging = if c then a.dodging else b.dodging :=
  apply_ite _ c a b

variable (bi : BotInput) (b : BotState) (fix : ℚ) (sign : Bool)

@[simp] lemma botDodge_remainingTime :
    (botDodge fix sign b).remainingTime = b.remainingTime := rfl

@[simp] lemma botDodge_duration : (botDodge fix sign b).duration = 1/4 + fix := rfl

@[simp] lemma botFireStep_fst_dodging : (botFireStep bi b).1.dodging = b.dodging := by
  rw [botFireStep]; split <;> rfl

@[simp] lemma botFireStep_fst_duration : (botFireStep bi b).1.duration = b.duration := by
  rw [botFireStep]; split <;> rfl

@[simp] lemma botFireStep_fst_rotation :
    (botFireStep bi b).1.rotation = b.rotation := by
  rw [botFireStep]; split <;> rfl

end helperLemmas

/-- C1: For every combination of (player_alive, player_moved,
player_rotated) and modifier set, the speed-factor function returns
exactly one tier, chosen by the first matching rule of the ordered list:
player dead yields slow regardless of modifiers (including freeze-time);
else player moved yields normal; else an active freeze-time modifier
yields frozen (factor 0); else an active fast-time modifier yields slow;
else player rotated yields slower; otherwise the slowest tier.  The
statement is generic in the speed table, so one cascade governs both the
opponent scale (botSpeeds) and the bullet scale (bulletSpeeds); the last
two conjuncts record that update derives both scales from getSpeed with
the same three flags. -/
theorem speed_rule_cascade (m : Mutators) (alive moved rotated : Bool)
    (speeds : SpeedTable) (inp : TickInput) (s : GameState) :
    (alive = false → getSpeed m alive moved rotated speeds = speeds.slow)
  ∧ (alive = true → moved = true →
       getSpeed m alive moved rotated speeds = speeds.normal)
  ∧ (alive = true → moved = false → m.freezetime = true →
       getSpeed m alive moved rotated speeds = 0)
  ∧ (alive = true → moved = false → m.freezetime = false → m.fasttime = true →
       getSpeed m alive moved rotated speeds = speeds.slow)
  ∧ (alive = true → moved = false → m.freezetime = false → m.fasttime = false →
       rotated = true → getSpeed m alive moved rotated speeds = speeds.slower)
  ∧ (alive = true → moved = false → m.freezetime = false → m.fasttime = false →
       rotated = false → getSpeed m alive moved rotated speeds = speeds.slowest)
  ∧ (getSpeed m alive moved rotated speeds = speeds.slow
      ∨ getSpeed m alive moved rotated speeds = speeds.normal
      ∨ getSpeed m alive moved rotated speeds = 0
      ∨ getSpeed m alive moved rotated speeds = speeds.slower
      ∨ getSpeed m alive moved rotated speeds = speeds.slowest)
  ∧ (dilatedElapsed m inp s = inp.time.physicsElapsed *
       (getSpeed m s.player.alive (playerMovedOf inp s) (playerRotatedOf m inp s)
           bulletSpeeds / bulletSpeeds.normal))
  ∧ (superhot s = false → inp.fireDown = false →
       0 < s.nextBotTime - dilatedElapsed m inp s →
       (update m inp s).bots = botsAdvance inp.time (dilatedElapsed m inp s)
         (getSpeed m s.player.alive (playerMovedOf inp s) (playerRotatedOf m inp s)
            botSpeeds)
         ((s.level : ℕ) : ℚ) inp.pointerAngle false inp.botInputs s.bots) := by
  refine ⟨?_, ?_, ?_, ?_, ?_, ?_, ?_, rfl, ?_⟩
  · intro h; simp [getSpeed, h]
  · intro h1 h2; simp [getSpeed, h1, h2]
  · intro h1 h2 h3; simp [getSpeed, h1, h2, h3]
  · intro h1 h2 h3 h4; simp [getSpeed, h1, h2, h3, h4]
  · intro h1 h2 h3 h4 h5; simp [getSpeed, h1, h2, h3, h4, h5]
  · intro h1 h2 h3 h4 h5; simp [getSpeed, h1, h2, h3, h4, h5]
  · cases alive <;> cases moved <;> cases rotated <;>
      cases hf : m.freezetime <;> cases ht : m.fasttime <;>
      simp [getSpeed, hf, ht]
  · intro hsh hfire hbt
    have hbt' : ¬(s.nextBotTime - dilatedElapsed m inp s ≤ 0) := not_le.mpr hbt
    by_cases ha : s.player.alive = true <;> by_cases hh : s.hotswitching = true <;>
      by_cases hc : 0 < s.countsBots <;>
        by_cases hdod : (playerMovedOf inp s && m.dodge && inp.dodgeDown) = true <;>
          simp [update, hsh, hfire, ha, hh, hc, hdod, hbt']

/-- Witness: the speed cascade applied at concrete inputs — a dead
player yields the slow tier even under freeze-time, a moving player the
normal tier, and freeze-time freezes an idle player. -/
theorem speed_rule_cascade_witness :
    getSpeed mutAllOff false true false bulletSpeeds = bulletSpeeds.slow
  ∧ getSpeed mutAllOff true true false botSpeeds = botSpeeds.normal
  ∧ getSpeed mutFreeze true false false bulletSpeeds = 0
  ∧ getSpeed mutFreeze false false false bulletSpeeds = bulletSpeeds.slow :=
  ⟨(speed_rule_cascade mutAllOff false true false bulletSpeeds sampleTick sampleGame).1
      rfl,
   (speed_rule_cascade mutAllOff true true false botSpeeds sampleTick sampleGame).2.1
      rfl rfl,
   (speed_rule_cascade mutFreeze true false false bulletSpeeds sampleTick
      sampleGame).2.2.1 rfl rfl rfl,
   (speed_rule_cascade mutFreeze false false false bulletSpeeds sampleTick
      sampleGame).1 rfl⟩

/-- C2: On every tick, the simulated elapsed time equals the real
physics elapsed time multiplied by (bullet speed factor / bullet normal
speed), and this dilated elapsed time, not wall-clock time, is the value
subtracted from every gameplay timer: the player's fire cooldown and
dodge timers, each opponent's fire cooldown and dodge duration, the
next-spawn countdown, and the hotswitch cooldown, the latter being
paused, not decremented, while a swap animation is in progress.  The
per-opponent conjuncts are stated on botAdvance, which update invokes
with the dilated elapsed time (see the last conjunct of the C1
theorem); the hypotheses exclude the paths on which the respective timer
is overwritten after the subtraction (a shot resetting a fire cooldown,
a dodge ending, a spawn firing). -/
theorem dilated_time_drives_timers (m : Mutators) (inp : TickInput) (s : GameState)
    (t : TimeInfo) (dtB speedB levelB prB : ℚ) (pf : Bool) (bi : BotInput)
    (b : BotState) :
    (dilatedElapsed m inp s = inp.time.physicsElapsed *
        (getSpeed m s.player.alive (playerMovedOf inp s) (playerRotatedOf m inp s)
            bulletSpeeds / bulletSpeeds.normal))
  ∧ (superhot s = false → s.player.alive = true → inp.fireDown = false →
       (update m inp s).player.remainingTime
         = s.player.remainingTime - dilatedElapsed m inp s)
  ∧ (superhot s = false → s.player.alive = true → inp.fireDown = false →
       inp.dodgeDown = false → s.player.dodging = false →
       (update m inp s).player.dodgeRemainingTime
         = s.player.dodgeRemainingTime - dilatedElapsed m inp s)
  ∧ (superhot s = false → s.player.alive = true → inp.fireDown = false →
       s.player.dodging = true → 0 < s.player.duration - dilatedElapsed m inp s →
       (update m inp s).player.duration
         = s.player.duration - dilatedElapsed m inp s)
  ∧ (superhot s = false → s.hotswitching = false →
       (update m inp s).nextHotSwitch = s.nextHotSwitch - dilatedElapsed m inp s)
  ∧ (superhot s = false → s.hotswitching = true →
       (update m inp s).nextHotSwitch = s.nextHotSwitch)
  ∧ (superhot s = false → 0 < s.countsBots →
       0 < s.nextBotTime - dilatedElapsed m inp s →
       (update m inp s).nextBotTime = s.nextBotTime - dilatedElapsed m inp s)
  ∧ (¬(bi.dist < (NATIVE_WIDTH + NATIVE_HEIGHT) / 2 ∧ b.remainingTime - dtB ≤ 0) →
       (botAdvance t dtB speedB levelB prB pf bi b).1.remainingTime
         = b.remainingTime - dtB)
  ∧ (b.dodging = true →
       (botAdvance t dtB speedB levelB prB pf bi b).1.duration = b.duration - dtB) := by
  refine ⟨rfl, ?_, ?_, ?_, ?_, ?_, ?_, ?_, ?_⟩
  · intro hsh ha hfire
    simp [update, hsh, ha, hfire, spawnBot]
  · intro hsh ha hfire hdd hpd
    simp [update, hsh, ha, hfire, hdd, hpd, spawnBot, playerAdvance_of_not_dodging]
  · intro hsh ha hfire hpd hpos
    simp [update, hsh, ha, hfire, hpd, hpos, spawnBot, playerDodge_of_dodging,
      playerAdvance_of_dodging_pos]
  · intro hsh hh
    simp [update, hsh, hh, spawnBot]
  · intro hsh hh
    simp [update, hsh, hh, spawnBot]
  · intro hsh hc hbt
    simp [update, hsh, hc, not_le.mpr hbt, spawnBot]
  · intro h
    simp [botAdvance, h]
    intro h1 h2
    exact absurd ⟨h1, sub_nonpos.mpr h2⟩ h
  · intro h
    simp [botAdvance, h]

/-- Witness: the dilated-time law applied at concrete inputs. -/
theorem dilated_time_drives_timers_witness :
    ((update mutAllOff sampleTick sampleGame).nextHotSwitch
       = sampleGame.nextHotSwitch - dilatedElapsed mutAllOff sampleTick sampleGame)
  ∧ ((botAdvance sampleTick.time (1/60) 300 3 0 false sampleBotInput
        sampleBot).1.remainingTime = sampleBot.remainingTime - 1/60)
  ∧ ((botAdvance sampleTick.time (1/60) 300 3 0 false sampleBotInput
        { sampleBot with dodging := true }).1.duration
       = sampleBot.duration - 1/60) :=
  ⟨(dilated_time_drives_timers mutAllOff sampleTick sampleGame sampleTick.time
      (1/60) 300 3 0 false sampleBotInput sampleBot).2.2.2.2.1 rfl rfl,
   (dilated_time_drives_timers mutAllOff sampleTick sampleGame sampleTick.time
      (1/60) 300 3 0 false sampleBotInput sampleBot).2.2.2.2.2.2.2.1
      (by norm_num [sampleBot, NATIVE_WIDTH, NATIVE_HEIGHT]),
   (dilated_time_drives_timers mutAllOff sampleTick sampleGame sampleTick.time
      (1/60) 300 3 0 false sampleBotInput
      { sampleBot with dodging := true }).2.2.2.2.2.2.2.2 rfl⟩

/-- C6: The Rifle's fire operation mutates its own fire rate cyclically:
starting from an internal shot counter of 10, each of the first 9 shots
sets the fire rate to base times the drawn realInRange(0.9, 1.4) value,
and the 10th shot sets the fire rate to base times 3.5 (forced cooldown)
and resets the internal counter to 10; hence firing a Rifle 10
consecutive times produces the 9-variable + 1-long fire-rate pattern.
The draws are universally quantified inputs standing for the successive
realInRange(0.9, 1.4) values. -/
theorem rifle_cadence_cycle (ff d1 d2 d3 d4 d5 d6 d7 d8 d9 d10 : ℚ) :
    (rifleInit ff).bulletCount = 10
  ∧ rifleFireSeq ff [d1] (rifleInit ff)
      = { bulletCount := 9, fireRate := RIFLE_FIRE_RATE * ff * d1 }
  ∧ rifleFireSeq ff [d1, d2] (rifleInit ff)
      = { bulletCount := 8, fireRate := RIFLE_FIRE_RATE * ff * d2 }
  ∧ rifleFireSeq ff [d1, d2, d3] (rifleInit ff)
      = { bulletCount := 7, fireRate := RIFLE_FIRE_RATE * ff * d3 }
  ∧ rifleFireSeq ff [d1, d2, d3, d4] (rifleInit ff)
      = { bulletCount := 6, fireRate := RIFLE_FIRE_RATE * ff * d4 }
  ∧ rifleFireSeq ff [d1, d2, d3, d4, d5] (rifleInit ff)
      = { bulletCount := 5, fireRate := RIFLE_FIRE_RATE * ff * d5 }
  ∧ rifleFireSeq ff [d1, d2, d3, d4, d5, d6] (rifleInit ff)
      = { bulletCount := 4, fireRate := RIFLE_FIRE_RATE * ff * d6 }
  ∧ rifleFireSeq ff [d1, d2, d3, d4, d5, d6, d7] (rifleInit ff)
      = { bulletCount := 3, fireRate := RIFLE_FIRE_RATE * ff * d7 }
  ∧ rifleFireSeq ff [d1, d2, d3, d4, d5, d6, d7, d8] (rifleInit ff)
      = { bulletCount := 2, fireRate := RIFLE_FIRE_RATE * ff * d8 }
  ∧ rifleFireSeq ff [d1, d2, d3, d4, d5, d6, d7, d8, d9] (rifleInit ff)
      = { bulletCount := 1, fireRate := RIFLE_FIRE_RATE * ff * d9 }
  ∧ rifleFireSeq ff [d1, d2, d3, d4, d5, d6, d7, d8, d9, d10] (rifleInit ff)
      = { bulletCount := 10, fireRate := RIFLE_FIRE_RATE * ff * (7/2) } := by
  refine ⟨rfl, ?_, ?_, ?_, ?_, ?_, ?_, ?_, ?_, ?_, ?_⟩ <;>
    norm_num [rifleFireSeq, rifleFire, rifleInit, RIFLE_BULLET_COUNT]

/-- Dying bullets stay dead across the rest of a contact run (left
side). -/
lemma bulletContactRun_player_dead (sides : List Bool) :
    ∀ s : BulletPairState, s.playerBullet = false →
      (bulletContactRun s sides).playerBullet = false := by
  induction sides with
  | nil => intro s h; exact h
  | cons side rest ih =>
    intro s h
    cases side <;> exact ih _ (by simp [bulletHandlerStep, h])

/-- Dying bullets stay dead across the rest of a contact run (right
side). -/
lemma bulletContactRun_bot_dead (sides : List Bool) :
    ∀ s : BulletPairState, s.botBullet = false →
      (bulletContactRun s sides).botBullet = false := by
  induction sides with
  | nil => intro s h; exact h
  | cons side rest ih =>
    intro s h
    cases side <;> exact ih _ (by simp [bulletHandlerStep, h])

/-- A run containing an invocation from the player-bullet side leaves
the player bullet dead. -/
lemma bulletContactRun_kills_player (sides : List Bool) :
    ∀ s : BulletPairState, true ∈ sides →
      (bulletContactRun s sides).playerBullet = false := by
  induction sides with
  | nil => intro s h; cases h
  | cons side rest ih =>
    intro s h
    cases side
    · exact ih _ (by simpa using h)
    · exact bulletContactRun_player_dead rest _ (by simp [bulletHandlerStep])

/-- A run containing an invocation from the bot-bullet side leaves the
bot bullet dead. -/
lemma bulletContactRun_kills_bot (sides : List Bool) :
    ∀ s : BulletPairState, false ∈ sides →
      (bulletContactRun s sides).botBullet = false := by
  induction sides with
  | nil => intro s h; cases h
  | cons side rest ih =>
    intro s h
    cases side
    · exact bulletContactRun_bot_dead rest _ (by simp [bulletHandlerStep])
    · exact ih _ (by simpa using h)

/-- C7: When a player bullet and an opponent bullet are in contact
during a physics step, both bullets end the step dead even though each
handler invocation kills only its own bullet: any run of handler
invocations that includes at least one invocation from each side ends
with both bullets dead, regardless of how often the multi-shape bodies
repeat the contact.  Each collision outcome handler is idempotent:
repeating an invocation changes nothing, an invocation on an
already-dead own bullet leaves the state unchanged, the bot kill handler
ignores a dead bot (no second kill, no second win trigger), and the lose
handler ignores a dead bullet. -/
theorem collision_handlers_idempotent (s : BulletPairState) (sides : List Bool)
    (g : GameState) (i : ℕ) (ls : LoseState) :
    (true ∈ sides → false ∈ sides →
       bulletContactRun s sides = { playerBullet := false, botBullet := false })
  ∧ (∀ side, bulletHandlerStep side (bulletHandlerStep side s)
       = bulletHandlerStep side s)
  ∧ (s.playerBullet = false → bulletHandlerStep true s = s)
  ∧ (s.botBullet = false → bulletHandlerStep false s = s)
  ∧ (botAliveAt g.bots i = false → botKillHandler g i = (g, false))
  ∧ (ls.bulletAlive = false → lose ls = ls) := by
  refine ⟨?_, ?_, ?_, ?_, ?_, ?_⟩
  · intro h1 h2
    have hp := bulletContactRun_kills_player sides s h1
    have hb := bulletContactRun_kills_bot sides s h2
    calc bulletContactRun s sides
        = { playerBullet := (bulletContactRun s sides).playerBullet,
            botBullet := (bulletContactRun s sides).botBullet } := rfl
      _ = { playerBullet := false, botBullet := false } := by rw [hp, hb]
  · intro side; cases side <;> simp [bulletHandlerStep]
  · intro h; simp [bulletHandlerStep, ← h]
  · intro h; simp [bulletHandlerStep, ← h]
  · intro h; simp [botKillHandler, h]
  · intro h; simp [lose, h]

/-- Witness: the mutual-cancellation and idempotence facts applied at a
concrete contact. -/
theorem collision_handlers_idempotent_witness :
    bulletContactRun { playerBullet := true, botBullet := true } [true, false, true]
      = { playerBullet := false, botBullet := false }
  ∧ bulletHandlerStep true { playerBullet := false, botBullet := true }
      = { playerBullet := false, botBullet := true }
  ∧ botKillHandler sampleGame 5 = (sampleGame, false)
  ∧ lose { bulletAlive := false, playerAlive := true, mutators := mutAllOff,
           countsBots := 2, bots := [sampleBot], inputAttached := true,
           playerBulletCollision := true }
      = { bulletAlive := false, playerAlive := true, mutators := mutAllOff,
          countsBots := 2, bots := [sampleBot], inputAttached := true,
          playerBulletCollision := true } :=
  ⟨(collision_handlers_idempotent _ [true, false, true] sampleGame 5
      { bulletAlive := false, playerAlive := true, mutators := mutAllOff,
        countsBots := 2, bots := [sampleBot], inputAttached := true,
        playerBulletCollision := true }).1 (by simp) (by simp),
   (collision_handlers_idempotent { playerBullet := false, botBullet := true }
      [true, false, true] sampleGame 5
      { bulletAlive := false, playerAlive := true, mutators := mutAllOff,
        countsBots := 2, bots := [sampleBot], inputAttached := true,
        playerBulletCollision := true }).2.2.1 rfl,
   (collision_handlers_idempotent { playerBullet := true, botBullet := true }
      [true, false, true] sampleGame 5
      { bulletAlive := false, playerAlive := true, mutators := mutAllOff,
        countsBots := 2, bots := [sampleBot], inputAttached := true,
        playerBulletCollision := true }).2.2.2.2.1 rfl,
   (collision_handlers_idempotent { playerBullet := true, botBullet := true }
      [true, false, true] sampleGame 5
      { bulletAlive := false, playerAlive := true, mutators := mutAllOff,
        countsBots := 2, bots := [sampleBot], inputAttached := true,
        playerBulletCollision := true }).2.2.2.2.2 rfl⟩

/-- While alive, a bullet's owner is the owner recorded by the most
recent fire event. -/
lemma bulletRun_owner (evs : List BulletEvent) :
    ∀ b : BulletState, (bulletRun b evs).alive = true →
      (bulletRun b evs).owner = lastFireOwner evs b.owner := by
  induction evs with
  | nil => intro b _; rfl
  | cons e rest ih =>
    intro b h
    cases e with
    | fire o px py r =>
      simpa [bulletRun, bulletStep, lastFireOwner, bulletFire, bulletReset]
        using ih (bulletFire o px py r b) (by simpa [bulletRun] using h)
    | kill =>
      simpa [bulletRun, bulletStep, lastFireOwner, bulletKill]
        using ih (bulletKill b) (by simpa [bulletRun] using h)

/-- The alive-implies-owned invariant is preserved by every lifecycle
event. -/
lemma bulletRun_owned (evs : List BulletEvent) :
    ∀ b : BulletState, (b.alive = true → b.owner ≠ none) →
      (bulletRun b evs).alive = true → (bulletRun b evs).owner ≠ none := by
  induction evs with
  | nil => intro b h ha; exact h ha
  | cons e rest ih =>
    intro b h ha
    cases e with
    | fire o px py r =>
      exact ih (bulletFire o px py r b)
        (by simp [bulletFire, bulletReset]) (by simpa [bulletRun] using ha)
    | kill =>
      exact ih (bulletKill b) (by simp [bulletKill]) (by simpa [bulletRun] using ha)

/-- C9 counterexample: killing a fired bullet does NOT clear its owner —
the owner reference survives until the bullet is reused.  Here a bullet
fired by actor 1 is killed, and its owner is still actor 1 after
death. -/
theorem bullet_owner_on_death_cex :
    (bulletKill (bulletFire 1 5 5 0 freshBullet)).alive = false
  ∧ (bulletKill (bulletFire 1 5 5 0 freshBullet)).trailAttached = false
  ∧ (bulletKill (bulletFire 1 5 5 0 freshBullet)).owner = some 1
  ∧ (bulletKill (bulletFire 1 5 5 0 freshBullet)).owner ≠ none :=
  ⟨rfl, rfl, rfl, by simp [bulletKill, bulletFire, bulletReset, freshBullet]⟩

/-- C9 (amended): a bullet's owner reference points to the actor that
fired it at all times while the bullet is alive, and when the bullet
dies its trail visual detaches; the owner reference, however, is cleared
by the reset that happens on reuse (inside the next fire), not at the
moment of death. -/
theorem bullet_owner_lifecycle (oid : ℕ) (px py r : ℚ) (b : BulletState)
    (evs : List BulletEvent) :
    ((bulletFire oid px py r b).alive = true
      ∧ (bulletFire oid px py r b).owner = some oid
      ∧ (bulletFire oid px py r b).trailAttached = true)
  ∧ ((bulletKill b).alive = false ∧ (bulletKill b).trailAttached = false
      ∧ (bulletKill b).owner = b.owner)
  ∧ ((bulletReset px py b).owner = none)
  ∧ ((bulletRun freshBullet evs).alive = true →
       (bulletRun freshBullet evs).owner = lastFireOwner evs none
     ∧ (bulletRun freshBullet evs).owner ≠ none) := by
  refine ⟨⟨rfl, rfl, rfl⟩, ⟨rfl, rfl, rfl⟩, rfl, ?_⟩
  intro ha
  exact ⟨by simpa [freshBullet] using bulletRun_owner evs freshBullet ha,
    bulletRun_owned evs freshBullet (by simp [freshBullet]) ha⟩

/-- Witness: the bullet lifecycle invariant applied to a concrete event
sequence (fire by actor 2, kill, reuse by actor 7). -/
theorem bullet_owner_lifecycle_witness :
    (bulletRun freshBullet
        [.fire 2 0 0 0, .kill, .fire 7 1 1 0]).owner = some 7 := by
  have h := (bullet_owner_lifecycle 2 0 0 0 freshBullet
      [.fire 2 0 0 0, .kill, .fire 7 1 1 0]).2.2.2 rfl
  simpa [lastFireOwner] using h.1

/-- A request during the animation is always rejected and changes
nothing. -/
lemma hotswitchRequest_busy (c : Bool) (s : HotswitchState)
    (h : s.hotswitching = true) : hotswitchRequest c s = (s, false) := by
  cases c <;> by_cases hn : 0 < s.nextHotSwitch <;> simp [hotswitchRequest, h, hn]

/-- C4: A hotswitch request is rejected when the cooldown is still
positive or a swap animation is already in progress, so issuing two swap
requests within one animation window results in exactly one swap (the
second request is rejected both before the position exchange and after
it, until the fade-in completes); and the accepted swap's position
exchange is exact: the player's physics position after the swap equals
the clicked opponent's position before it, and vice versa. -/
theorem hotswitch_exclusivity (m : Mutators) (s : HotswitchState) (c1 c2 : Bool) :
    (c1 = false → hotswitchRequest c1 s = (s, false))
  ∧ (0 < s.nextHotSwitch → hotswitchRequest c1 s = (s, false))
  ∧ (s.hotswitching = true → hotswitchRequest c1 s = (s, false))
  ∧ (c1 = true → s.nextHotSwitch ≤ 0 → s.hotswitching = false →
       (hotswitchRequest c1 s).2 = true
     ∧ (hotswitchRequest c1 s).1 = { s with hotswitching := true })
  ∧ (c1 = true → s.nextHotSwitch ≤ 0 → s.hotswitching = false →
       hotswitchRequest c2 (hotswitchRequest c1 s).1
         = ((hotswitchRequest c1 s).1, false)
     ∧ hotswitchRequest c2 (hotswitchSwap m (hotswitchRequest c1 s).1)
         = (hotswitchSwap m (hotswitchRequest c1 s).1, false))
  ∧ ((hotswitchSwap m s).playerX = s.botX ∧ (hotswitchSwap m s).playerY = s.botY
     ∧ (hotswitchSwap m s).botX = s.playerX ∧ (hotswitchSwap m s).botY = s.playerY)
  ∧ ((hotswitchSwap m s).hotswitching = s.hotswitching
     ∧ (endHotswitch (hotswitchSwap m s)).hotswitching = false) := by
  refine ⟨?_, ?_, ?_, ?_, ?_, ⟨rfl, rfl, rfl, rfl⟩, rfl, rfl⟩
  · intro h; simp [hotswitchRequest, h]
  · intro h; simp [hotswitchRequest, h]
  · intro h
    exact hotswitchRequest_busy c1 s h
  · intro hc hn hh
    simp [hotswitchRequest, hc, hn, not_lt.mpr hn, hh]
  · intro hc hn hh
    have h1 : (hotswitchRequest c1 s).1.hotswitching = true := by
      simp [hotswitchRequest, hc, not_lt.mpr hn, hh]
    refine ⟨hotswitchRequest_busy c2 _ h1, hotswitchRequest_busy c2 _ ?_⟩
    simpa [hotswitchSwap] using h1

/-- Witness: the hotswitch exclusivity facts at a concrete state with an
expired cooldown — the first request is accepted, the second rejected,
and the exchange is exact. -/
theorem hotswitch_exclusivity_witness :
    (hotswitchRequest true
        { nextHotSwitch := 0, hotswitching := false, playerX := 1, playerY := 2,
          botX := 30, botY := 40 }).2 = true
  ∧ hotswitchRequest true
        { nextHotSwitch := 0, hotswitching := true, playerX := 1, playerY := 2,
          botX := 30, botY := 40 }
      = ({ nextHotSwitch := 0, hotswitching := true, playerX := 1, playerY := 2,
           botX := 30, botY := 40 }, false)
  ∧ (hotswitchSwap mutAllOff
        { nextHotSwitch := 0, hotswitching := true, playerX := 1, playerY := 2,
          botX := 30, botY := 40 }).playerX = 30
  ∧ (hotswitchSwap mutAllOff
        { nextHotSwitch := 0, hotswitching := true, playerX := 1, playerY := 2,
          botX := 30, botY := 40 }).botX = 1 :=
  ⟨((hotswitch_exclusivity mutAllOff
      { nextHotSwitch := 0, hotswitching := false, playerX := 1, playerY := 2,
        botX := 30, botY := 40 } true true).2.2.2.1 rfl le_rfl rfl).1,
   (hotswitch_exclusivity mutAllOff
      { nextHotSwitch := 0, hotswitching := true, playerX := 1, playerY := 2,
        botX := 30, botY := 40 } true true).2.2.1 rfl,
   (hotswitch_exclusivity mutAllOff
      { nextHotSwitch := 0, hotswitching := true, playerX := 1, playerY := 2,
        botX := 30, botY := 40 } true true).2.2.2.2.2.1.1,
   (hotswitch_exclusivity mutAllOff
      { nextHotSwitch := 0, hotswitching := true, playerX := 1, playerY := 2,
        botX := 30, botY := 40 } true true).2.2.2.2.2.1.2.2.1⟩

/-- C5 counterexample: a bullet contact on a live player with neither
godmode nor second-chance active does NOT kill the player when the win
condition already holds — the handler checks the superhot getter and
returns, so the claim's "the player dies unless godmode or second-chance
is active" fails on this input (the bullet still dies). -/
theorem lose_unless_modifier_cex :
    loseCexState.mutators.godmode = false
  ∧ loseCexState.mutators.secondchance = false
  ∧ loseCexState.bulletAlive = true
  ∧ loseCexState.playerAlive = true
  ∧ (lose loseCexState).playerAlive = true
  ∧ (lose loseCexState).bulletAlive = false :=
  ⟨rfl, rfl, rfl, rfl, rfl, rfl⟩

/-- The bullet-alive flag does not feed the superhot getter. -/
@[simp] lemma loseSuperhot_set_bulletAlive (s : LoseState) (v : Bool) :
    loseSuperhot { s with bulletAlive := v } = loseSuperhot s := rfl

section loseIte

variable (c : Prop) [Decidable c] (a b : LoseState)

@[simp] lemma ite_lose_bulletAlive :
    (if c then a else b).bulletAlive = if c then a.bulletAlive else b.bulletAlive :=
  apply_ite _ c a b

@[simp] lemma ite_lose_playerAlive :
    (if c then a else b).playerAlive = if c then a.playerAlive else b.playerAlive :=
  apply_ite _ c a b

@[simp] lemma ite_lose_inputAttached :
    (if c then a else b).inputAttached =
      if c then a.inputAttached else b.inputAttached := apply_ite _ c a b

@[simp] lemma ite_lose_playerBulletCollision :
    (if c then a else b).playerBulletCollision =
      if c then a.playerBulletCollision else b.playerBulletCollision :=
  apply_ite _ c a b

@[simp] lemma ite_lose_mutators :
    (if c then a else b).mutators = if c then a.mutators else b.mutators :=
  apply_ite _ c a b

@[simp] lemma ite_mutators_secondchance (x y : Mutators) :
    (if c then x else y).secondchance =
      if c then x.secondchance else y.secondchance := apply_ite _ c x y

end loseIte

/-- The lose handler always leaves the colliding bullet dead. -/
lemma lose_kills_bullet (s : LoseState) : (lose s).bulletAlive = false := by
  rcases Bool.eq_false_or_eq_true s.bulletAlive with h | h <;> simp [lose, h]

/-- The lose handler ignores a contact whose bullet is already dead. -/
lemma lose_of_dead_bullet (s : LoseState) (h : s.bulletAlive = false) :
    lose s = s := by
  simp [lose, h]

/-- C5 (amended): Whenever a bullet contacts the player, the bullet
always dies; the player dies unless the godmode modifier is active, the
one-shot second-chance modifier is active (in which case second-chance
is consumed exactly once and behaves normally thereafter), or the level
has already been won (the superhot getter holds); and on player death
the hotswitch input handling is detached and the player's
bullet-collision handlers are removed, and a repeated invocation of the
handler changes nothing, so the lose handler cannot re-trigger after
death. -/
theorem lose_handler_behavior (s : LoseState) :
    ((lose s).bulletAlive = false)
  ∧ (lose (lose s) = lose s)
  ∧ (s.bulletAlive = true → s.playerAlive = true →
       s.mutators.secondchance = true →
       (lose s).playerAlive = true ∧ (lose s).mutators.secondchance = false
     ∧ (lose s).inputAttached = s.inputAttached
     ∧ (lose s).playerBulletCollision = s.playerBulletCollision)
  ∧ (s.bulletAlive = true → s.playerAlive = true →
       s.mutators.secondchance = false →
       (loseSuperhot s = true ∨ s.mutators.godmode = true) →
       (lose s).playerAlive = true)
  ∧ (s.bulletAlive = true → s.playerAlive = true →
       s.mutators.secondchance = false → loseSuperhot s = false →
       s.mutators.godmode = false →
       (lose s).playerAlive = false ∧ (lose s).inputAttached = false
     ∧ (lose s).playerBulletCollision = false)
  ∧ (s.bulletAlive = true → s.playerAlive = true →
       s.mutators.secondchance = true → loseSuperhot s = false →
       s.mutators.godmode = false →
       (lose { lose s with bulletAlive := true }).playerAlive = false) := by
  refine ⟨lose_kills_bullet s, lose_of_dead_bullet _ (lose_kills_bullet s), ?_, ?_, ?_, ?_⟩
  · intro h1 h2 h3
    simp [lose, h1, h2, h3]
  · intro h1 h2 h3 h4
    rcases h4 with h4 | h4
    · simp only [loseSuperhot] at h4
      simp [lose, h1, h2, h3, h4, loseSuperhot]
    · simp [lose, h1, h2, h3, h4]
  · intro h1 h2 h3 h4 h5
    simp only [loseSuperhot] at h4
    simp [lose, h1, h2, h3, h4, h5, loseSuperhot]
  · intro h1 h2 h3 h4 h5
    have hstep : lose s = { s with bulletAlive := false,
                                   mutators := { s.mutators with secondchance := false } } := by
      simp [lose, h1, h2, h3]
    rw [hstep]
    simp only [loseSuperhot] at h4
    simp [lose, h2, h5, h4, loseSuperhot]

/-- Witness: the lose handler at concrete states — a second chance is
consumed, and without modifiers the player dies and the handlers
detach. -/
theorem lose_handler_behavior_witness :
    ((lose loseSecondChanceState).playerAlive = true
      ∧ (lose loseSecondChanceState).mutators.secondchance = false)
  ∧ ((lose loseNormalState).playerAlive = false
      ∧ (lose loseNormalState).inputAttached = false
      ∧ (lose loseNormalState).playerBulletCollision = false) :=
  ⟨⟨((lose_handler_behavior loseSecondChanceState).2.2.1 rfl rfl rfl).1,
    ((lose_handler_behavior loseSecondChanceState).2.2.1 rfl rfl rfl).2.1⟩,
   (lose_handler_behavior loseNormalState).2.2.2.2.1 rfl rfl rfl rfl rfl⟩

/-- When no bot is living, every index reads as dead. -/
lemma botAliveAt_of_countLiving_zero :
    ∀ bots : List BotState, countLiving bots = 0 →
      ∀ i, botAliveAt bots i = false := by
  intro bots
  induction bots with
  | nil => intro _ i; cases i <;> rfl
  | cons b bs ih =>
    intro h i
    have hb : b.alive = false := by
      by_contra hb
      have hb' : b.alive = true := by simpa using hb
      simp [countLiving, List.filter_cons, hb'] at h
    cases i with
    | zero => exact hb
    | succ n => exact ih (by simpa [countLiving, List.filter_cons, hb] using h) n

/-- A triggering event leaves the state in the winning configuration. -/
lemma levelStep_trigger_superhot (s : GameState) (e : LevelEvent)
    (h : (levelStep s e).2 = true) : superhot (levelStep s e).1 = true := by
  cases e with
  | spawn inp => simp [levelStep] at h
  | kill i =>
    rcases Bool.eq_false_or_eq_true (botAliveAt s.bots i) with ha | ha
    · simpa [levelStep, botKillHandler, ha] using h
    · simp [levelStep, botKillHandler, ha] at h

/-- Once the winning configuration holds, level events neither change
the state nor trigger again. -/
lemma levelStep_of_superhot (s : GameState) (e : LevelEvent)
    (h : superhot s = true) : levelStep s e = (s, false) := by
  have hc : s.countsBots = 0 ∧ countLiving s.bots = 0 := by
    simpa [superhot] using h
  cases e with
  | spawn inp => simp [levelStep, hc.1]
  | kill i =>
    simp [levelStep, botKillHandler,
      botAliveAt_of_countLiving_zero s.bots hc.2 i]

/-- No trigger can occur from the winning configuration onward. -/
lemma levelTriggers_of_superhot (evs : List LevelEvent) :
    ∀ s : GameState, superhot s = true → levelTriggers s evs = 0 := by
  induction evs with
  | nil => intro s _; rfl
  | cons e rest ih =>
    intro s h
    rw [levelTriggers, levelStep_of_superhot s e h]
    simpa using ih s h

/-- C3: The win sequence triggers exactly once per level, at the moment
an opponent kill leaves both the remaining-to-spawn counter at zero and
no living opponents; it never triggers while the remaining-to-spawn
counter is greater than zero, even if the number of living opponents is
transiently zero.  The last conjunct bounds the number of triggers over
an arbitrary sequence of spawn and kill events by one. -/
theorem win_trigger_exactness (s : GameState) (i : ℕ) (e : LevelEvent)
    (evs : List LevelEvent) :
    ((botKillHandler s i).2 = true ↔
       (botAliveAt s.bots i = true ∧ s.countsBots = 0
          ∧ countLiving (killBotAt s.bots i) = 0))
  ∧ (0 < s.countsBots → (levelStep s e).2 = false)
  ∧ (superhot s = true → levelStep s e = (s, false))
  ∧ (levelTriggers s evs ≤ 1) := by
  refine ⟨?_, ?_, levelStep_of_superhot s e, ?_⟩
  · rcases Bool.eq_false_or_eq_true (botAliveAt s.bots i) with ha | ha <;>
      simp [botKillHandler, superhot, ha]
  · intro h
    cases e with
    | spawn inp => simp [levelStep]
    | kill j =>
      have hne : s.countsBots ≠ 0 := by omega
      rcases Bool.eq_false_or_eq_true (botAliveAt s.bots j) with ha | ha <;>
        simp [levelStep, botKillHandler, superhot, ha, hne]
  · clear i e
    induction evs generalizing s with
    | nil => simp [levelTriggers]
    | cons e rest ih =>
      rw [levelTriggers]
      rcases Bool.eq_false_or_eq_true (levelStep s e).2 with h2 | h2
      · have hsh := levelStep_trigger_superhot s e h2
        simp [h2, levelTriggers_of_superhot rest _ hsh]
      · simpa [h2] using ih (levelStep s e).1

/-- Witness: the win-trigger characterization at concrete states — the
kill of the last opponent with nothing left to spawn triggers, and a
kill with two opponents left to spawn does not. -/
theorem win_trigger_exactness_witness :
    (botKillHandler { sampleGame with countsBots := 0 } 0).2 = true
  ∧ (levelStep sampleGame (.kill 0)).2 = false
  ∧ levelTriggers sampleGame [.kill 0, .kill 0] ≤ 1 :=
  ⟨(win_trigger_exactness { sampleGame with countsBots := 0 } 0 (.kill 0) []).1.mpr
      ⟨rfl, rfl, rfl⟩,
   (win_trigger_exactness sampleGame 0 (.kill 0) []).2.1 (by norm_num [sampleGame]),
   (win_trigger_exactness sampleGame 0 (.kill 0) [.kill 0, .kill 0]).2.2.2⟩

/-- The possible bullet outputs of one bot tick: nothing, or a shot at
the jittered bearing. -/
lemma botAdvance_snd (t : TimeInfo) (dt speed level pr : ℚ) (pf : Bool)
    (bi : BotInput) (b : BotState) :
    (botAdvance t dt speed level pr pf bi b).2 = none
  ∨ (botAdvance t dt speed level pr pf bi b).2
      = some (bi.bearing + bi.jitterDraw) := by
  by_cases h : bi.dist < (NATIVE_WIDTH + NATIVE_HEIGHT) / 2 ∧ b.remainingTime ≤ dt
  · by_cases hf : bi.fireFrac ≤ (5:ℚ)⁻¹ <;>
      simp [botAdvance, botFireStep, h, hf, sub_nonpos, one_div]
  · simp [botAdvance, botFireStep, h, sub_nonpos]

/-- C8: Each tick, a living opponent whose distance to the player is
within firing range and whose fire cooldown has elapsed first rolls a
hesitation chance of 1/5 (the frac draw is uniform on the unit interval,
so the comparison with 1/5 succeeds with that probability): on success
it fires no bullet this cycle and instead sets its cooldown to the
rnd.between(0, max(fire_rate * (1 - level/100), 0)) draw, which lies in
that closed interval; otherwise it fires with the realInRange(-2deg,
2deg) jitter added to the true bearing to the player.  Dead bots are
skipped, and no shot happens out of range or while the cooldown runs. -/
theorem bot_fire_discipline (t : TimeInfo) (dt speed level pr : ℚ) (pf : Bool)
    (bi : BotInput) (b : BotState) (is : List BotInput) (bs : List BotState) :
    (b.alive = false → botsAdvance t dt speed level pr pf (bi :: is) (b :: bs)
       = b :: botsAdvance t dt speed level pr pf is bs)
  ∧ (¬(bi.dist < (NATIVE_WIDTH + NATIVE_HEIGHT) / 2 ∧ b.remainingTime - dt ≤ 0) →
       (botAdvance t dt speed level pr pf bi b).2 = none)
  ∧ (bi.dist < (NATIVE_WIDTH + NATIVE_HEIGHT) / 2 → b.remainingTime - dt ≤ 0 →
       bi.fireFrac ≤ 1/5 →
       (botAdvance t dt speed level pr pf bi b).2 = none
     ∧ (botAdvance t dt speed level pr pf bi b).1.remainingTime = bi.cooldownDraw)
  ∧ (0 ≤ bi.cooldownDraw →
       bi.cooldownDraw ≤ max (b.weaponFireRate * (1 - level / 100)) 0 →
       bi.dist < (NATIVE_WIDTH + NATIVE_HEIGHT) / 2 → b.remainingTime - dt ≤ 0 →
       bi.fireFrac ≤ 1/5 →
       0 ≤ (botAdvance t dt speed level pr pf bi b).1.remainingTime
     ∧ (botAdvance t dt speed level pr pf bi b).1.remainingTime
         ≤ max (b.weaponFireRate * (1 - level / 100)) 0)
  ∧ (bi.dist < (NATIVE_WIDTH + NATIVE_HEIGHT) / 2 → b.remainingTime - dt ≤ 0 →
       ¬(bi.fireFrac ≤ 1/5) →
       (botAdvance t dt speed level pr pf bi b).2 = some (bi.bearing + bi.jitterDraw)
     ∧ (botAdvance t dt speed level pr pf bi b).1.remainingTime = b.weaponFireRate)
  ∧ (|bi.jitterDraw| ≤ 2 * ANGLE_1DEG →
       ∀ a, (botAdvance t dt speed level pr pf bi b).2 = some a →
         |a - bi.bearing| ≤ 2 * ANGLE_1DEG) := by
  refine ⟨?_, ?_, ?_, ?_, ?_, ?_⟩
  · intro h; simp [botsAdvance, h]
  · intro h
    rw [sub_nonpos] at h
    simp [botAdvance, botFireStep, h, sub_nonpos]
  · intro h1 h2 h3
    have hc : bi.dist < (NATIVE_WIDTH + NATIVE_HEIGHT) / 2
        ∧ b.remainingTime ≤ dt := ⟨h1, sub_nonpos.mp h2⟩
    simp only [one_div] at h3
    exact ⟨by simp [botAdvance, botFireStep, hc, h3, sub_nonpos, one_div],
           by simp [botAdvance, botFireStep, hc, h3, sub_nonpos, one_div]⟩
  · intro h0 hm h1 h2 h3
    have hc : bi.dist < (NATIVE_WIDTH + NATIVE_HEIGHT) / 2
        ∧ b.remainingTime ≤ dt := ⟨h1, sub_nonpos.mp h2⟩
    simp only [one_div] at h3
    have he : (botAdvance t dt speed level pr pf bi b).1.remainingTime
        = bi.cooldownDraw := by
      simp [botAdvance, botFireStep, hc, h3, sub_nonpos, one_div]
    rw [he]; exact ⟨h0, hm⟩
  · intro h1 h2 h3
    have hc : bi.dist < (NATIVE_WIDTH + NATIVE_HEIGHT) / 2
        ∧ b.remainingTime ≤ dt := ⟨h1, sub_nonpos.mp h2⟩
    simp only [one_div] at h3
    exact ⟨by simp [botAdvance, botFireStep, hc, h3, sub_nonpos, one_div],
           by simp [botAdvance, botFireStep, hc, h3, sub_nonpos, one_div]⟩
  · intro hj a ha
    rcases botAdvance_snd t dt speed level pr pf bi b with h | h
    · rw [h] at ha; cases ha
    · rw [h] at ha
      have : a = bi.bearing + bi.jitterDraw := by simpa using ha.symm
      simpa [this] using hj

/-- Witness: the fire discipline at concrete inputs — a hesitating bot
holds fire and takes the drawn partial cooldown, a non-hesitating bot
shoots at the jittered bearing. -/
theorem bot_fire_discipline_witness :
    ((botAdvance sampleTick.time (1/60) 300 3 0 false
        { sampleBotInput with fireFrac := 1/10 }
        { sampleBot with remainingTime := 0 }).2 = none
      ∧ (botAdvance sampleTick.time (1/60) 300 3 0 false
          { sampleBotInput with fireFrac := 1/10 }
          { sampleBot with remainingTime := 0 }).1.remainingTime = 0)
  ∧ ((botAdvance sampleTick.time (1/60) 300 3 0 false sampleBotInput
        { sampleBot with remainingTime := 0 }).2 = some (0 + 1)
      ∧ (botAdvance sampleTick.time (1/60) 300 3 0 false sampleBotInput
          { sampleBot with remainingTime := 0 }).1.remainingTime = 1/2) :=
  ⟨(bot_fire_discipline sampleTick.time (1/60) 300 3 0 false
      { sampleBotInput with fireFrac := 1/10 }
      { sampleBot with remainingTime := 0 } [] []).2.2.1
      (by norm_num [sampleBotInput, NATIVE_WIDTH, NATIVE_HEIGHT])
      (by norm_num [sampleBot]) (by norm_num [sampleBotInput]),
   (bot_fire_discipline sampleTick.time (1/60) 300 3 0 false sampleBotInput
      { sampleBot with remainingTime := 0 } [] []).2.2.2.2.1
      (by norm_num [sampleBotInput, NATIVE_WIDTH, NATIVE_HEIGHT])
      (by norm_num [sampleBot]) (by norm_num [sampleBotInput])⟩

/-- Over any run of fire attempts, a nonnegative budget bounds the
number of successful shots. -/
lemma fireAttempts_le_budget (attempts : List Bool) :
    ∀ s : GameState, 0 ≤ s.countsBullets →
      ((fireAttempts s attempts).2 : ℤ) ≤ s.countsBullets := by
  induction attempts with
  | nil => intro s h; simpa [fireAttempts] using h
  | cons a rest ih =>
    intro s h
    cases a with
    | false => simpa [fireAttempts] using ih s h
    | true =>
      by_cases hc : 0 < s.player.remainingTime ∨ s.countsBullets = 0
      · have hfp : firePlayerBullet s = (s, false) := by
          rw [firePlayerBullet, if_pos hc]
        simpa [fireAttempts, hfp] using ih s h
      · have h2 : (firePlayerBullet s).2 = true := by
          rw [firePlayerBullet, if_neg hc]
        have h1 : (firePlayerBullet s).1.countsBullets = s.countsBullets - 1 := by
          rw [firePlayerBullet, if_neg hc]
        have hne : s.countsBullets ≠ 0 := fun he => hc (Or.inr he)
        have hrec := ih (firePlayerBullet s).1 (by rw [h1]; omega)
        rw [fireAttempts]
        rw [h1] at hrec
        simp [h2]
        omega

/-- A negative budget stays negative across any run of fire attempts. -/
lemma fireAttempts_neg_budget (attempts : List Bool) :
    ∀ s : GameState, s.countsBullets < 0 →
      (fireAttempts s attempts).1.countsBullets < 0 := by
  induction attempts with
  | nil => intro s h; simpa [fireAttempts] using h
  | cons a rest ih =>
    intro s h
    cases a with
    | false => simpa [fireAttempts] using ih s h
    | true =>
      by_cases hc : 0 < s.player.remainingTime ∨ s.countsBullets = 0
      · have hfp : firePlayerBullet s = (s, false) := by
          rw [firePlayerBullet, if_pos hc]
        simpa [fireAttempts, hfp] using ih s h
      · have h1 : (firePlayerBullet s).1.countsBullets = s.countsBullets - 1 := by
          rw [firePlayerBullet, if_neg hc]
        have hrec := ih (firePlayerBullet s).1 (by rw [h1]; omega)
        simpa [fireAttempts] using hrec

/-- C10: When the limited-bullets mutator is enabled, the player's
bullet budget is initialized at level start to 3 times the level's total
opponent count, each successful player shot decrements it by one, and a
fire request with a zero budget is refused (no bullet is spawned and the
fire attempt reports false), so the player fires at most 3 times
opponent-count shots per level; when the mutator is disabled the budget
is -1, only a running cooldown can refuse a shot, and the budget never
reaches zero, so it never blocks firing. -/
theorem limited_bullets_budget (m : Mutators) (level : ℕ) (s : GameState)
    (attempts : List Bool) :
    (m.lmtdbull = true → initBullets m (botsForLevel level) = 3 * botsForLevel level)
  ∧ (m.lmtdbull = false → initBullets m (botsForLevel level) = -1)
  ∧ (s.countsBullets = 0 → firePlayerBullet s = (s, false))
  ∧ (0 < s.player.remainingTime → firePlayerBullet s = (s, false))
  ∧ (¬(0 < s.player.remainingTime) → s.countsBullets ≠ 0 →
       (firePlayerBullet s).2 = true
     ∧ (firePlayerBullet s).1.countsBullets = s.countsBullets - 1
     ∧ (firePlayerBullet s).1.playerShots = s.playerShots + 1)
  ∧ (0 ≤ s.countsBullets → ((fireAttempts s attempts).2 : ℤ) ≤ s.countsBullets)
  ∧ (m.lmtdbull = true → 0 ≤ botsForLevel level →
       ((fireAttempts { s with countsBullets := initBullets m (botsForLevel level) }
           attempts).2 : ℤ) ≤ 3 * botsForLevel level)
  ∧ (s.countsBullets < 0 →
       (¬(0 < s.player.remainingTime) → (firePlayerBullet s).2 = true)
     ∧ (fireAttempts s attempts).1.countsBullets < 0) := by
  refine ⟨?_, ?_, ?_, ?_, ?_, fireAttempts_le_budget attempts s, ?_, ?_⟩
  · intro h; simp [initBullets, h, mul_comm]
  · intro h; simp [initBullets, h]
  · intro h; simp [firePlayerBullet, h]
  · intro h; simp [firePlayerBullet, h]
  · intro h1 h2; simp [firePlayerBullet, h1, h2]
  · intro hm hnb
    have := fireAttempts_le_budget attempts
      { s with countsBullets := initBullets m (botsForLevel level) }
      (by simp [initBullets, hm]; omega)
    simpa [initBullets, hm, mul_comm] using this
  · intro h
    refine ⟨?_, fireAttempts_neg_budget attempts s h⟩
    intro h2
    simp [firePlayerBullet, h2]
    omega

/-- Witness: the bullet budget at concrete states — a zero budget
refuses the shot, and three ticks of fire attempts on a budget of 3
score at most 3 hits. -/
theorem limited_bullets_budget_witness :
    firePlayerBullet { sampleGame with countsBullets := 0 }
      = ({ sampleGame with countsBullets := 0 }, false)
  ∧ ((fireAttempts { sampleGame with countsBullets := 3 }
        [true, true, true, true]).2 : ℤ) ≤ 3
  ∧ (fireAttempts sampleGame [true, true]).1.countsBullets < 0 :=
  ⟨(limited_bullets_budget mutAllOff 1 { sampleGame with countsBullets := 0 }
      []).2.2.1 rfl,
   (limited_bullets_budget mutAllOff 1 { sampleGame with countsBullets := 3 }
      [true, true, true, true]).2.2.2.2.2.1 (by norm_num),
   ((limited_bullets_budget mutAllOff 1 sampleGame [true, true]).2.2.2.2.2.2.2
      (by norm_num [sampleGame])).2⟩

end Supercold
